import Mathlib

/-!
Verification of `util/winutil/winutil_windows.go` (package `winutil`).

The Go code orchestrates Windows API calls.  We embed it shallowly: the
operating system is a record `WinEnv` giving the outcome of every platform
call an invocation can make, and each Go function becomes a Lean function
from a `WinEnv` (plus its Go arguments) to its Go result together with a
trace of observable events (calls made, resources opened and closed,
thread pinning, impersonation).  Properties about call ordering, resource
balance and error propagation are then proved for every environment.
-/

namespace Winutil

/-- `windows.SE_PRIVILEGE_ENABLED`. -/
def SE_PRIVILEGE_ENABLED : Nat := 0x00000002

/-- `windows.PROCESS_CREATE_PROCESS`. -/
def PROCESS_CREATE_PROCESS : Nat := 0x0080

/-- `windows.PROCESS_QUERY_INFORMATION`. -/
def PROCESS_QUERY_INFORMATION : Nat := 0x0400

/-- `windows.PROCESS_DUP_HANDLE`. -/
def PROCESS_DUP_HANDLE : Nat := 0x0040

/-- `windows.TOKEN_QUERY`. -/
def TOKEN_QUERY : Nat := 0x0008

/-- `windows.TOKEN_ADJUST_PRIVILEGES`. -/
def TOKEN_ADJUST_PRIVILEGES : Nat := 0x0020

/-- `const regBase` of the Go file. -/
def regBase : String := "SOFTWARE\\Tailscale IPN"

/-- `const regPolicyBase` of the Go file. -/
def regPolicyBase : String := "SOFTWARE\\Policies\\Tailscale"

/-- `var ErrNoShell = errors.New("no Shell process is present")`.
Go errors are modelled by their message strings. -/
def ErrNoShell : String := "no Shell process is present"

/-- One entry of `windows.Tokenprivileges.Privileges` (a `LUID_AND_ATTRIBUTES`). -/
structure LUIDAndAttributes where
  luid : Nat
  attributes : Nat
deriving DecidableEq, Repr

/-- `windows.Tokenprivileges`: a count and a single-entry privilege array,
exactly as the Go struct used by `EnableCurrentThreadPrivilege` (the code
only ever touches `Privileges[0]`). -/
structure Tokenprivileges where
  privilegeCount : Nat
  privileges : LUIDAndAttributes
deriving DecidableEq, Repr

/-- `syscall.SidType*` account-type constants as an enumeration.  The six
accepted ones are those listed in `isSIDValidPrincipal`'s switch. -/
inductive SidType where
  | user
  | group
  | domain
  | alias
  | wellKnownGroup
  | deletedAccount
  | invalid
  | unknown
  | computer
  | label
deriving DecidableEq, Repr

/-- Observable events of one invocation, in program order: OS-thread
pinning, impersonation, token/handle opens and closes, privilege calls,
registry accesses and the final process creation.  Open events record the
outcome (`some h` = a live handle `h` was acquired, `none` = the call
failed and no resource was acquired). -/
inductive Event where
  | lockOSThread
  | unlockOSThread
  | impersonateSelf (ok : Bool)
  | revertToSelf
  | openThreadToken (res : Option Nat)
  | closeToken (h : Nat)
  | lookupPrivilege (name : String)
  | adjustPrivileges (tok : Nat) (tp : Tokenprivileges)
  | openProcess (access : Nat) (pid : Nat) (res : Option Nat)
  | closeHandle (h : Nat)
  | openProcessToken (ph : Nat) (res : Option Nat)
  | environRead (tok : Nat)
  | cmdStart (path : String) (envBlock : List String) (parent : Nat)
  | regOpen (subKey : String)
  | regRead (subKey : String) (name : String)
  | regClose (subKey : String)
deriving DecidableEq, Repr

/-- The platform: the outcome of every Windows API call the Go file can
make.  Fallible calls are `Except String` (the error's message); handles
and tokens are numbers.  `callerEnviron` is the calling process's own
environment — present only so we can state that the spawner never uses it. -/
structure WinEnv where
  getShellWindow : Nat
  getWindowThreadProcessId : Nat → Nat
  impersonateSelf : Except String Unit
  openThreadToken : Except String Nat
  utf16PtrFromString : String → Except String Unit
  lookupPrivilegeValue : String → Except String Nat
  adjustTokenPrivileges : Nat → Tokenprivileges → Except String Unit
  openProcess : Nat → Nat → Except String Nat
  openProcessToken : Nat → Except String Nat
  environ : Nat → Except String (List String)
  callerEnviron : List String
  cmdStart : String → List String → Nat → Except String Unit
  regOpenKey : String → Except String Unit
  regGetString : String → String → Except String String
  regGetInteger : String → String → Except String Nat
  stringToSid : String → Except String Nat
  lookupAccount : Nat → Except String SidType

/-- `GetDesktopPID`: window handle of the shell; `ErrNoShell` when it is
zero; otherwise the owning pid, or an error naming the HWND when the pid
resolves to zero. -/
def GetDesktopPID (env : WinEnv) : Except String Nat :=
  let hwnd := env.getShellWindow
  if hwnd = 0 then
    .error ErrNoShell
  else
    let pid := env.getWindowThreadProcessId hwnd
    if pid = 0 then
      .error ("invalid PID for HWND " ++ toString hwnd)
    else
      .ok pid

/-- `getRegStringInternal(subKey, name)`: open the registry key (read
access), then read the string value; the key is closed on exit.  The two
`log.Printf` calls of the Go code have no observable effect and are not
modelled. -/
def getRegStringInternal (env : WinEnv) (subKey name : String) :
    Except String String × List Event :=
  match env.regOpenKey subKey with
  | .error e => (.error e, [.regOpen subKey])
  | .ok _ =>
    match env.regGetString subKey name with
    | .error e => (.error e, [.regOpen subKey, .regRead subKey name, .regClose subKey])
    | .ok v => (.ok v, [.regOpen subKey, .regRead subKey name, .regClose subKey])

/-- `getRegIntegerInternal(subKey, name)`: like `getRegStringInternal`,
reading an integer value. -/
def getRegIntegerInternal (env : WinEnv) (subKey name : String) :
    Except String Nat × List Event :=
  match env.regOpenKey subKey with
  | .error e => (.error e, [.regOpen subKey])
  | .ok _ =>
    match env.regGetInteger subKey name with
    | .error e => (.error e, [.regOpen subKey, .regRead subKey name, .regClose subKey])
    | .ok v => (.ok v, [.regOpen subKey, .regRead subKey name, .regClose subKey])

/-- `getRegString(name, defval)`: read `name` under `regBase`, returning
`defval` on any error. -/
def getRegString (env : WinEnv) (name defval : String) : String × List Event :=
  let r := getRegStringInternal env regBase name
  match r.1 with
  | .error _ => (defval, r.2)
  | .ok s => (s, r.2)

/-- `getRegInteger(name, defval)`: read `name` under `regBase`, returning
`defval` on any error. -/
def getRegInteger (env : WinEnv) (name : String) (defval : Nat) : Nat × List Event :=
  let r := getRegIntegerInternal env regBase name
  match r.1 with
  | .error _ => (defval, r.2)
  | .ok i => (i, r.2)

/-- `getPolicyString(name, defval)`: read `name` under `regPolicyBase`;
on any error fall back to the legacy path `getRegString`. -/
def getPolicyString (env : WinEnv) (name defval : String) : String × List Event :=
  let r := getRegStringInternal env regPolicyBase name
  match r.1 with
  | .error _ =>
    let r2 := getRegString env name defval
    (r2.1, r.2 ++ r2.2)
  | .ok s => (s, r.2)

/-- `getPolicyInteger(name, defval)`: read `name` under `regPolicyBase`;
on any error fall back to the legacy path `getRegInteger`. -/
def getPolicyInteger (env : WinEnv) (name : String) (defval : Nat) : Nat × List Event :=
  let r := getRegIntegerInternal env regPolicyBase name
  match r.1 with
  | .error _ =>
    let r2 := getRegInteger env name defval
    (r2.1, r.2 ++ r2.2)
  | .ok i => (i, r.2)

/-- `isSIDValidPrincipal(uid)`: parse the SID, look up its account, and
accept exactly the six account types of the Go switch.  Any parse or
lookup failure yields `false`; the function itself never errors. -/
def isSIDValidPrincipal (env : WinEnv) (uid : String) : Bool :=
  match env.stringToSid uid with
  | .error _ => false
  | .ok usid =>
    match env.lookupAccount usid with
    | .error _ => false
    | .ok accType =>
      match accType with
      | .user | .group | .domain | .alias | .wellKnownGroup | .computer => true
      | _ => false

/-- `EnableCurrentThreadPrivilege(name)`: open the current thread token
(query + adjust-privileges access), resolve the privilege's LUID from its
name, then adjust the token with a single enabled privilege entry.  The
thread token is closed by `defer` on every exit after a successful open. -/
def EnableCurrentThreadPrivilege (env : WinEnv) (name : String) :
    Except String Unit × List Event :=
  match env.openThreadToken with
  | .error e => (.error e, [.openThreadToken none])
  | .ok t =>
    match env.utf16PtrFromString name with
    | .error e => (.error e, [.openThreadToken (some t), .closeToken t])
    | .ok _ =>
      match env.lookupPrivilegeValue name with
      | .error e =>
        (.error e, [.openThreadToken (some t), .lookupPrivilege name, .closeToken t])
      | .ok luid =>
        match env.adjustTokenPrivileges t ⟨1, ⟨luid, SE_PRIVILEGE_ENABLED⟩⟩ with
        | .error e =>
          (.error e, [.openThreadToken (some t), .lookupPrivilege name,
            .adjustPrivileges t ⟨1, ⟨luid, SE_PRIVILEGE_ENABLED⟩⟩, .closeToken t])
        | .ok _ =>
          (.ok (), [.openThreadToken (some t), .lookupPrivilege name,
            .adjustPrivileges t ⟨1, ⟨luid, SE_PRIVILEGE_ENABLED⟩⟩, .closeToken t])

/-- The access mask `StartProcessAsChild` requests on the target process. -/
def spawnAccess : Nat :=
  PROCESS_CREATE_PROCESS ||| PROCESS_QUERY_INFORMATION ||| PROCESS_DUP_HANDLE

/-- `StartProcessAsChild(parentPID, exePath, extraEnv)`: pin the OS thread,
impersonate self, enable `SeDebugPrivilege` on the thread token, open the
target process, open its token, read its environment, append `extraEnv`,
and start `exePath` with the target as parent process.  Each `defer`
(unpin, revert, close handle, close token) runs LIFO on every exit path
after its acquisition succeeded. -/
def StartProcessAsChild (env : WinEnv) (parentPID : Nat) (exePath : String)
    (extraEnv : List String) : Except String Unit × List Event :=
  match env.impersonateSelf with
  | .error e =>
    (.error e, [.lockOSThread, .impersonateSelf false, .unlockOSThread])
  | .ok _ =>
    match EnableCurrentThreadPrivilege env "SeDebugPrivilege" with
    | (.error e, etr) =>
      (.error e, [.lockOSThread, .impersonateSelf true] ++ etr ++
        [.revertToSelf, .unlockOSThread])
    | (.ok _, etr) =>
      match env.openProcess spawnAccess parentPID with
      | .error e =>
        (.error e, [.lockOSThread, .impersonateSelf true] ++ etr ++
          [.openProcess spawnAccess parentPID none, .revertToSelf, .unlockOSThread])
      | .ok ph =>
        match env.openProcessToken ph with
        | .error e =>
          (.error e, [.lockOSThread, .impersonateSelf true] ++ etr ++
            [.openProcess spawnAccess parentPID (some ph),
             .openProcessToken ph none,
             .closeHandle ph, .revertToSelf, .unlockOSThread])
        | .ok pt =>
          match env.environ pt with
          | .error e =>
            (.error e, [.lockOSThread, .impersonateSelf true] ++ etr ++
              [.openProcess spawnAccess parentPID (some ph),
               .openProcessToken ph (some pt), .environRead pt,
               .closeToken pt, .closeHandle ph, .revertToSelf, .unlockOSThread])
          | .ok targetEnv =>
            match env.cmdStart exePath (targetEnv ++ extraEnv) ph with
            | .error e =>
              (.error e, [.lockOSThread, .impersonateSelf true] ++ etr ++
                [.openProcess spawnAccess parentPID (some ph),
                 .openProcessToken ph (some pt), .environRead pt,
                 .cmdStart exePath (targetEnv ++ extraEnv) ph,
                 .closeToken pt, .closeHandle ph, .revertToSelf, .unlockOSThread])
            | .ok _ =>
              (.ok (), [.lockOSThread, .impersonateSelf true] ++ etr ++
                [.openProcess spawnAccess parentPID (some ph),
                 .openProcessToken ph (some pt), .environRead pt,
                 .cmdStart exePath (targetEnv ++ extraEnv) ph,
                 .closeToken pt, .closeHandle ph, .revertToSelf, .unlockOSThread])

/-- `StartProcessAsCurrentGUIUser(exePath, extraEnv)`: resolve the desktop
shell's pid and hand it to `StartProcessAsChild`; each failure is wrapped
with a fixed message via `fmt.Errorf("...: %v", err)`. -/
def StartProcessAsCurrentGUIUser (env : WinEnv) (exePath : String)
    (extraEnv : List String) : Except String Unit × List Event :=
  match GetDesktopPID env with
  | .error e => (.error ("failed to find desktop: " ++ e), [])
  | .ok desktop =>
    match StartProcessAsChild env desktop exePath extraEnv with
    | (.error e, tr) => (.error ("failed to start executable: " ++ e), tr)
    | (.ok _, tr) => (.ok (), tr)

/-- An all-success environment used to instantiate universally quantified
theorems at a concrete point. -/
def envOk : WinEnv where
  getShellWindow := 7
  getWindowThreadProcessId := fun _ => 42
  impersonateSelf := .ok ()
  openThreadToken := .ok 11
  utf16PtrFromString := fun _ => .ok ()
  lookupPrivilegeValue := fun _ => .ok 20
  adjustTokenPrivileges := fun _ _ => .ok ()
  openProcess := fun _ _ => .ok 33
  openProcessToken := fun _ => .ok 44
  environ := fun _ => .ok ["A=1", "B=2"]
  callerEnviron := ["CALLER=1"]
  cmdStart := fun _ _ _ => .ok ()
  regOpenKey := fun _ => .ok ()
  regGetString := fun _ _ => .ok "policyval"
  regGetInteger := fun _ _ => .ok 5
  stringToSid := fun _ => .ok 0
  lookupAccount := fun _ => .ok .user

/-- An environment in which `AdjustTokenPrivileges` is denied, so that
privilege elevation fails mid-sequence. -/
def envAdjustFail : WinEnv :=
  { envOk with adjustTokenPrivileges := fun _ _ => .error "access denied" }

/-- An environment with no desktop shell window. -/
def envNoShell : WinEnv :=
  { envOk with getShellWindow := 0 }

/-- Is the event a target-process open attempt (`windows.OpenProcess`)? -/
def isOpenProcessEvent : Event → Bool
  | .openProcess _ _ _ => true
  | _ => false

/-- Is the event a privilege-adjustment call (`AdjustTokenPrivileges`)? -/
def isAdjustEvent : Event → Bool
  | .adjustPrivileges _ _ => true
  | _ => false

/-- Is the event the OS-thread pin (`runtime.LockOSThread`)? -/
def isLockEvent : Event → Bool
  | .lockOSThread => true
  | _ => false

/-- Is the event the OS-thread unpin (`runtime.UnlockOSThread`)? -/
def isUnlockEvent : Event → Bool
  | .unlockOSThread => true
  | _ => false

/-- The token handle an event acquires, if any (successful thread-token
or process-token open). -/
def tokenOpened : Event → Option Nat
  | .openThreadToken (some h) => some h
  | .openProcessToken _ (some h) => some h
  | _ => none

/-- The token handle an event releases, if any (`Token.Close`). -/
def tokenClosed : Event → Option Nat
  | .closeToken h => some h
  | _ => none

/-- The process handle an event acquires, if any (successful `OpenProcess`). -/
def handleOpened : Event → Option Nat
  | .openProcess _ _ (some h) => some h
  | _ => none

/-- The process handle an event releases, if any (`CloseHandle`). -/
def handleClosed : Event → Option Nat
  | .closeHandle h => some h
  | _ => none

/-- Security-token handles successfully opened in a trace, in order. -/
def openedTokens (tr : List Event) : List Nat := tr.filterMap tokenOpened

/-- Security-token handles closed in a trace, in order. -/
def closedTokens (tr : List Event) : List Nat := tr.filterMap tokenClosed

/-- Process handles successfully opened in a trace, in order. -/
def openedHandles (tr : List Event) : List Nat := tr.filterMap handleOpened

/-- Process handles closed in a trace, in order. -/
def closedHandles (tr : List Event) : List Nat := tr.filterMap handleClosed

/-- Does the event change the thread's impersonation state (a successful
`ImpersonateSelf` or a `RevertToSelf`)? -/
def togglesImpersonation : Event → Bool
  | .impersonateSelf true => true
  | .revertToSelf => true
  | _ => false

/-- Scan a trace with the current impersonation flag and check that every
privilege-adjustment call happens while the thread is impersonating —
after a successful `ImpersonateSelf` and before the matching
`RevertToSelf`. -/
def adjustsWhileImpersonating : List Event → Bool → Bool
  | [], _ => true
  | e :: r, f =>
    match e with
    | .impersonateSelf true => adjustsWhileImpersonating r true
    | .revertToSelf => adjustsWhileImpersonating r false
    | .adjustPrivileges _ _ => f && adjustsWhileImpersonating r f
    | _ => adjustsWhileImpersonating r f

/-- Does the event touch the registry subtree `subKey`? -/
def touchesSubKey (subKey : String) : Event → Bool
  | .regOpen k => k == subKey
  | .regRead k _ => k == subKey
  | .regClose k => k == subKey
  | _ => false

/-- Abstract security context of the calling process: the privileges of
its ambient (process-level) token, and the thread's impersonation token
(`none` while the thread is not impersonating).  Privileges are the bare
LUID lists; `ImpersonateSelf` copies the process identity onto the thread,
`RevertToSelf` drops it, and a privilege adjustment lands on the thread
token when one is present and would otherwise hit the ambient token. -/
structure SecCtx where
  processPrivs : List Nat
  threadTok : Option (List Nat)
deriving DecidableEq, Repr

/-- How one observable event transforms the security context. -/
def secStep (s : SecCtx) : Event → SecCtx
  | .impersonateSelf true => { s with threadTok := some s.processPrivs }
  | .revertToSelf => { s with threadTok := none }
  | .adjustPrivileges _ tp =>
    match s.threadTok with
    | some privs => { s with threadTok := some (tp.privileges.luid :: privs) }
    | none => { s with processPrivs := tp.privileges.luid :: s.processPrivs }
  | _ => s

/-- Run a trace over a starting security context. -/
def runSec (s : SecCtx) (tr : List Event) : SecCtx := tr.foldl secStep s

/-- C5: `GetDesktopPID` fails with `ErrNoShell` when no shell window
exists; fails with an error carrying the window-handle value when the
owning pid resolves to zero; and otherwise returns that nonzero pid. -/
theorem getDesktopPID_spec (env : WinEnv) :
    (env.getShellWindow = 0 → GetDesktopPID env = .error ErrNoShell) ∧
    (env.getShellWindow ≠ 0 →
      env.getWindowThreadProcessId env.getShellWindow = 0 →
      GetDesktopPID env =
        .error ("invalid PID for HWND " ++ toString env.getShellWindow)) ∧
    (env.getShellWindow ≠ 0 →
      env.getWindowThreadProcessId env.getShellWindow ≠ 0 →
      GetDesktopPID env = .ok (env.getWindowThreadProcessId env.getShellWindow)) := by
  refine ⟨fun h0 => ?_, fun hne hz => ?_, fun hne hnz => ?_⟩
  · simp [GetDesktopPID, h0]
  · simp [GetDesktopPID, hne, hz]
  · simp [GetDesktopPID, hne, hnz]

/-- C5 witness: on the all-success environment the shell window is 7,
its pid resolves to 42, and `GetDesktopPID` returns 42. -/
theorem getDesktopPID_spec_witness :
    envOk.getShellWindow ≠ 0 ∧
    envOk.getWindowThreadProcessId envOk.getShellWindow ≠ 0 ∧
    GetDesktopPID envOk = .ok (envOk.getWindowThreadProcessId envOk.getShellWindow) :=
  ⟨by decide, by decide,
    (getDesktopPID_spec envOk).2.2 (by decide) (by decide)⟩

/-- The impersonation-phase scan distributes over an append whose first
part never toggles the impersonation flag. -/
theorem adjustsWhileImpersonating_append (a b : List Event)
    (h : ∀ x ∈ a, togglesImpersonation x = false) :
    ∀ f, adjustsWhileImpersonating (a ++ b) f =
      (adjustsWhileImpersonating a f && adjustsWhileImpersonating b f) := by
  induction a with
  | nil => intro f; simp [adjustsWhileImpersonating]
  | cons x r ih =>
    intro f
    have hx := h x (by simp)
    have hr : ∀ y ∈ r, togglesImpersonation y = false := fun y hy => h y (by simp [hy])
    have ihf := ih hr f
    cases x
    case impersonateSelf bb =>
      cases bb
      · simpa [adjustsWhileImpersonating] using ihf
      · simp [togglesImpersonation] at hx
    case revertToSelf => simp [togglesImpersonation] at hx
    all_goals simp [adjustsWhileImpersonating, ihf, Bool.and_assoc]

/-- Facts about every `EnableCurrentThreadPrivilege` trace: the thread
token it opens is the one token it closes; it opens and closes no process
handle; it makes no process-open, no thread pin or unpin, no impersonation
toggle and no process creation; its privilege adjustments happen with the
impersonation flag as given; and any adjustment it makes targets the
thread token that `OpenThreadToken` returned. -/
theorem ecp_trace_facts (env : WinEnv) (name : String) :
    openedTokens (EnableCurrentThreadPrivilege env name).2 =
      closedTokens (EnableCurrentThreadPrivilege env name).2 ∧
    openedHandles (EnableCurrentThreadPrivilege env name).2 = [] ∧
    closedHandles (EnableCurrentThreadPrivilege env name).2 = [] ∧
    (EnableCurrentThreadPrivilege env name).2.countP isOpenProcessEvent = 0 ∧
    (EnableCurrentThreadPrivilege env name).2.countP isLockEvent = 0 ∧
    (EnableCurrentThreadPrivilege env name).2.countP isUnlockEvent = 0 ∧
    (∀ x ∈ (EnableCurrentThreadPrivilege env name).2, togglesImpersonation x = false) ∧
    adjustsWhileImpersonating (EnableCurrentThreadPrivilege env name).2 true = true ∧
    (∀ p b par, Event.cmdStart p b par ∉ (EnableCurrentThreadPrivilege env name).2) ∧
    (∀ t2 tp, Event.adjustPrivileges t2 tp ∈ (EnableCurrentThreadPrivilege env name).2 →
      env.openThreadToken = .ok t2) := by
  unfold EnableCurrentThreadPrivilege
  rcases h : env.openThreadToken with e | t
  · simp [openedTokens, closedTokens, openedHandles, closedHandles, tokenOpened,
      tokenClosed, handleOpened, handleClosed, isOpenProcessEvent, isLockEvent,
      isUnlockEvent, togglesImpersonation, adjustsWhileImpersonating]
  · dsimp only
    rcases env.utf16PtrFromString name with e | u
    · simp [openedTokens, closedTokens, openedHandles, closedHandles, tokenOpened,
        tokenClosed, handleOpened, handleClosed, isOpenProcessEvent, isLockEvent,
        isUnlockEvent, togglesImpersonation, adjustsWhileImpersonating]
    · dsimp only
      rcases env.lookupPrivilegeValue name with e | luid
      · simp [openedTokens, closedTokens, openedHandles, closedHandles, tokenOpened,
          tokenClosed, handleOpened, handleClosed, isOpenProcessEvent, isLockEvent,
          isUnlockEvent, togglesImpersonation, adjustsWhileImpersonating]
      · dsimp only
        rcases env.adjustTokenPrivileges t ⟨1, ⟨luid, SE_PRIVILEGE_ENABLED⟩⟩ with e | u2 <;>
          simp [openedTokens, closedTokens, openedHandles, closedHandles, tokenOpened,
            tokenClosed, handleOpened, handleClosed, isOpenProcessEvent, isLockEvent,
            isUnlockEvent, togglesImpersonation, adjustsWhileImpersonating, h]

/-- Running an `EnableCurrentThreadPrivilege` trace over a security
context whose thread is impersonating keeps the ambient process privileges
unchanged and keeps the thread impersonating. -/
theorem ecp_runSec (env : WinEnv) (name : String) (pp : List Nat) (l : List Nat) :
    ∃ l2, runSec ⟨pp, some l⟩ (EnableCurrentThreadPrivilege env name).2 =
      ⟨pp, some l2⟩ := by
  unfold EnableCurrentThreadPrivilege
  rcases env.openThreadToken with e | t
  · exact ⟨l, rfl⟩
  · dsimp only
    rcases env.utf16PtrFromString name with e | u
    · exact ⟨l, rfl⟩
    · dsimp only
      rcases env.lookupPrivilegeValue name with e | luid
      · exact ⟨l, rfl⟩
      · dsimp only
        rcases env.adjustTokenPrivileges t ⟨1, ⟨luid, SE_PRIVILEGE_ENABLED⟩⟩ with e | u2
        · exact ⟨luid :: l, rfl⟩
        · exact ⟨luid :: l, rfl⟩

/-- `StartProcessAsChild` when `ImpersonateSelf` fails. -/
theorem spac_imp_err (env : WinEnv) (pid : Nat) (path : String) (extra : List String)
    (e : String) (h1 : env.impersonateSelf = .error e) :
    StartProcessAsChild env pid path extra =
      (.error e, [.lockOSThread, .impersonateSelf false, .unlockOSThread]) := by
  unfold StartProcessAsChild; rw [h1]

/-- `StartProcessAsChild` when privilege elevation fails. -/
theorem spac_elev_err (env : WinEnv) (pid : Nat) (path : String) (extra : List String)
    (e : String) (etr : List Event) (h1 : env.impersonateSelf = .ok ())
    (h2 : EnableCurrentThreadPrivilege env "SeDebugPrivilege" = (.error e, etr)) :
    StartProcessAsChild env pid path extra =
      (.error e, [.lockOSThread, .impersonateSelf true] ++ etr ++
        [.revertToSelf, .unlockOSThread]) := by
  unfold StartProcessAsChild; rw [h1, h2]

/-- `StartProcessAsChild` when the target-process open fails. -/
theorem spac_open_err (env : WinEnv) (pid : Nat) (path : String) (extra : List String)
    (e : String) (etr : List Event) (h1 : env.impersonateSelf = .ok ())
    (h2 : EnableCurrentThreadPrivilege env "SeDebugPrivilege" = (.ok (), etr))
    (h3 : env.openProcess spawnAccess pid = .error e) :
    StartProcessAsChild env pid path extra =
      (.error e, [.lockOSThread, .impersonateSelf true] ++ etr ++
        [.openProcess spawnAccess pid none, .revertToSelf, .unlockOSThread]) := by
  unfold StartProcessAsChild; rw [h1, h2, h3]

/-- `StartProcessAsChild` when the target-token open fails. -/
theorem spac_ptoken_err (env : WinEnv) (pid : Nat) (path : String) (extra : List String)
    (e : String) (etr : List Event) (ph : Nat) (h1 : env.impersonateSelf = .ok ())
    (h2 : EnableCurrentThreadPrivilege env "SeDebugPrivilege" = (.ok (), etr))
    (h3 : env.openProcess spawnAccess pid = .ok ph)
    (h4 : env.openProcessToken ph = .error e) :
    StartProcessAsChild env pid path extra =
      (.error e, [.lockOSThread, .impersonateSelf true] ++ etr ++
        [.openProcess spawnAccess pid (some ph), .openProcessToken ph none,
         .closeHandle ph, .revertToSelf, .unlockOSThread]) := by
  unfold StartProcessAsChild; rw [h1, h2, h3]; dsimp only; rw [h4]

/-- `StartProcessAsChild` when the environment extraction fails. -/
theorem spac_environ_err (env : WinEnv) (pid : Nat) (path : String) (extra : List String)
    (e : String) (etr : List Event) (ph pt : Nat) (h1 : env.impersonateSelf = .ok ())
    (h2 : EnableCurrentThreadPrivilege env "SeDebugPrivilege" = (.ok (), etr))
    (h3 : env.openProcess spawnAccess pid = .ok ph)
    (h4 : env.openProcessToken ph = .ok pt)
    (h5 : env.environ pt = .error e) :
    StartProcessAsChild env pid path extra =
      (.error e, [.lockOSThread, .impersonateSelf true] ++ etr ++
        [.openProcess spawnAccess pid (some ph), .openProcessToken ph (some pt),
         .environRead pt, .closeToken pt, .closeHandle ph,
         .revertToSelf, .unlockOSThread]) := by
  unfold StartProcessAsChild; rw [h1, h2, h3]; dsimp only; rw [h4]; dsimp only
  rw [h5]

/-- `StartProcessAsChild` when process creation fails at the last step. -/
theorem spac_cmd_err (env : WinEnv) (pid : Nat) (path : String) (extra : List String)
    (e : String) (etr : List Event) (ph pt : Nat) (E : List String)
    (h1 : env.impersonateSelf = .ok ())
    (h2 : EnableCurrentThreadPrivilege env "SeDebugPrivilege" = (.ok (), etr))
    (h3 : env.openProcess spawnAccess pid = .ok ph)
    (h4 : env.openProcessToken ph = .ok pt)
    (h5 : env.environ pt = .ok E)
    (h6 : env.cmdStart path (E ++ extra) ph = .error e) :
    StartProcessAsChild env pid path extra =
      (.error e, [.lockOSThread, .impersonateSelf true] ++ etr ++
        [.openProcess spawnAccess pid (some ph), .openProcessToken ph (some pt),
         .environRead pt, .cmdStart path (E ++ extra) ph,
         .closeToken pt, .closeHandle ph, .revertToSelf, .unlockOSThread]) := by
  unfold StartProcessAsChild; rw [h1, h2, h3]; dsimp only; rw [h4]; dsimp only
  rw [h5]; dsimp only; rw [h6]

/-- `StartProcessAsChild` when every step succeeds. -/
theorem spac_ok (env : WinEnv) (pid : Nat) (path : String) (extra : List String)
    (etr : List Event) (ph pt : Nat) (E : List String)
    (h1 : env.impersonateSelf = .ok ())
    (h2 : EnableCurrentThreadPrivilege env "SeDebugPrivilege" = (.ok (), etr))
    (h3 : env.openProcess spawnAccess pid = .ok ph)
    (h4 : env.openProcessToken ph = .ok pt)
    (h5 : env.environ pt = .ok E)
    (h6 : env.cmdStart path (E ++ extra) ph = .ok ()) :
    StartProcessAsChild env pid path extra =
      (.ok (), [.lockOSThread, .impersonateSelf true] ++ etr ++
        [.openProcess spawnAccess pid (some ph), .openProcessToken ph (some pt),
         .environRead pt, .cmdStart path (E ++ extra) ph,
         .closeToken pt, .closeHandle ph, .revertToSelf, .unlockOSThread]) := by
  unfold StartProcessAsChild; rw [h1, h2, h3]; dsimp only; rw [h4]; dsimp only
  rw [h5]; dsimp only; rw [h6]

/-- The trace of one internal string read is the open of its subkey
followed by the value read and the key close (or just the failed open). -/
theorem getRegStringInternal_trace_cons (env : WinEnv) (subKey name : String) :
    ∃ l, (getRegStringInternal env subKey name).2 = .regOpen subKey :: l := by
  unfold getRegStringInternal
  rcases env.regOpenKey subKey with e | u
  · exact ⟨[], rfl⟩
  · rcases env.regGetString subKey name with e | v
    · exact ⟨_, rfl⟩
    · exact ⟨_, rfl⟩

/-- Integer analogue of `getRegStringInternal_trace_cons`. -/
theorem getRegIntegerInternal_trace_cons (env : WinEnv) (subKey name : String) :
    ∃ l, (getRegIntegerInternal env subKey name).2 = .regOpen subKey :: l := by
  unfold getRegIntegerInternal
  rcases env.regOpenKey subKey with e | u
  · exact ⟨[], rfl⟩
  · rcases env.regGetInteger subKey name with e | v
    · exact ⟨_, rfl⟩
    · exact ⟨_, rfl⟩

/-- An internal read of one subkey never touches a different subkey. -/
theorem getRegStringInternal_no_other_subkey (env : WinEnv) (subKey name k : String)
    (h : (subKey == k) = false) :
    (getRegStringInternal env subKey name).2.countP (touchesSubKey k) = 0 := by
  unfold getRegStringInternal
  rcases env.regOpenKey subKey with e | u
  · simp [touchesSubKey, h]
  · rcases env.regGetString subKey name with e | v <;> simp [touchesSubKey, h]

/-- Integer analogue of `getRegStringInternal_no_other_subkey`. -/
theorem getRegIntegerInternal_no_other_subkey (env : WinEnv) (subKey name k : String)
    (h : (subKey == k) = false) :
    (getRegIntegerInternal env subKey name).2.countP (touchesSubKey k) = 0 := by
  unfold getRegIntegerInternal
  rcases env.regOpenKey subKey with e | u
  · simp [touchesSubKey, h]
  · rcases env.regGetInteger subKey name with e | v <;> simp [touchesSubKey, h]

/-- The policy and legacy registry subtrees are distinct keys. -/
theorem regPolicyBase_ne_regBase : (regPolicyBase == regBase) = false := by decide

/-- C8: the tiered lookup tries the policy-namespace key first (the trace
begins with opening `regPolicyBase`); a successful policy read wins and the
legacy subtree is never consulted; on a failed policy read a successful
legacy read wins; and when both fail the caller's default is returned.
Stated for both `getPolicyString` and `getPolicyInteger`. -/
theorem policy_lookup_tiered (env : WinEnv) (name defval : String) (defvalI : Nat) :
    (∀ v, (getRegStringInternal env regPolicyBase name).1 = .ok v →
      (getPolicyString env name defval).1 = v ∧
      (getPolicyString env name defval).2.countP (touchesSubKey regBase) = 0) ∧
    (∀ e v, (getRegStringInternal env regPolicyBase name).1 = .error e →
      (getRegStringInternal env regBase name).1 = .ok v →
      (getPolicyString env name defval).1 = v) ∧
    (∀ e e2, (getRegStringInternal env regPolicyBase name).1 = .error e →
      (getRegStringInternal env regBase name).1 = .error e2 →
      (getPolicyString env name defval).1 = defval) ∧
    ((getPolicyString env name defval).2.head? = some (.regOpen regPolicyBase)) ∧
    (∀ v, (getRegIntegerInternal env regPolicyBase name).1 = .ok v →
      (getPolicyInteger env name defvalI).1 = v ∧
      (getPolicyInteger env name defvalI).2.countP (touchesSubKey regBase) = 0) ∧
    (∀ e v, (getRegIntegerInternal env regPolicyBase name).1 = .error e →
      (getRegIntegerInternal env regBase name).1 = .ok v →
      (getPolicyInteger env name defvalI).1 = v) ∧
    (∀ e e2, (getRegIntegerInternal env regPolicyBase name).1 = .error e →
      (getRegIntegerInternal env regBase name).1 = .error e2 →
      (getPolicyInteger env name defvalI).1 = defvalI) ∧
    ((getPolicyInteger env name defvalI).2.head? = some (.regOpen regPolicyBase)) := by
  refine ⟨fun v hv => ?_, fun e v he hv => ?_, fun e e2 he he2 => ?_, ?_,
    fun v hv => ?_, fun e v he hv => ?_, fun e e2 he he2 => ?_, ?_⟩
  · refine ⟨by simp [getPolicyString, hv], ?_⟩
    have h0 := getRegStringInternal_no_other_subkey env regPolicyBase name regBase
      regPolicyBase_ne_regBase
    simp [getPolicyString, hv, h0]
  · simp [getPolicyString, getRegString, he, hv]
  · simp [getPolicyString, getRegString, he, he2]
  · obtain ⟨l, hl⟩ := getRegStringInternal_trace_cons env regPolicyBase name
    rcases hr : (getRegStringInternal env regPolicyBase name).1 with e | v <;>
      simp [getPolicyString, hr, hl]
  · refine ⟨by simp [getPolicyInteger, hv], ?_⟩
    have h0 := getRegIntegerInternal_no_other_subkey env regPolicyBase name regBase
      regPolicyBase_ne_regBase
    simp [getPolicyInteger, hv, h0]
  · simp [getPolicyInteger, getRegInteger, he, hv]
  · simp [getPolicyInteger, getRegInteger, he, he2]
  · obtain ⟨l, hl⟩ := getRegIntegerInternal_trace_cons env regPolicyBase name
    rcases hr : (getRegIntegerInternal env regPolicyBase name).1 with e | v <;>
      simp [getPolicyInteger, hr, hl]

/-- C8 witness: on the all-success environment the policy-namespace read
yields the value, the lookup returns it, and the legacy subtree is not
touched. -/
theorem policy_lookup_tiered_witness :
    (getRegStringInternal envOk regPolicyBase "AuthKey").1 = .ok "policyval" ∧
    (getPolicyString envOk "AuthKey" "fallback").1 = "policyval" ∧
    (getPolicyString envOk "AuthKey" "fallback").2.countP (touchesSubKey regBase) = 0 :=
  ⟨rfl,
    ((policy_lookup_tiered envOk "AuthKey" "fallback" 9).1 "policyval" rfl).1,
    ((policy_lookup_tiered envOk "AuthKey" "fallback" 9).1 "policyval" rfl).2⟩

/-- C10: `isSIDValidPrincipal` is a total boolean check, true exactly when
the string parses as a SID, the account lookup succeeds, and the account
type is one of the six accepted kinds; every parse failure, lookup failure
or other account type yields `false`, never an error. -/
theorem isSIDValidPrincipal_characterization (env : WinEnv) (uid : String) :
    isSIDValidPrincipal env uid = true ↔
      ∃ s, env.stringToSid uid = .ok s ∧
        ∃ t, env.lookupAccount s = .ok t ∧
          (t = .user ∨ t = .group ∨ t = .domain ∨ t = .alias ∨
            t = .wellKnownGroup ∨ t = .computer) := by
  rcases h1 : env.stringToSid uid with e | s
  · simp [isSIDValidPrincipal, h1]
  · rcases h2 : env.lookupAccount s with e2 | t
    · simp [isSIDValidPrincipal, h1, h2]
    · cases t <;> simp [isSIDValidPrincipal, h1, h2]

/-- C7: `EnableCurrentThreadPrivilege` resolves the LUID for the privilege
name and adjusts the token with exactly one privilege entry, enabled; a
lookup failure terminates the call with the lookup error and no adjustment
is attempted, and an adjust failure terminates the call with the adjust
error; the two causes are distinct. -/
theorem enableCurrentThreadPrivilege_spec (env : WinEnv) (name : String) (t : Nat)
    (ht : env.openThreadToken = .ok t)
    (hu : env.utf16PtrFromString name = .ok ()) :
    (∀ e, env.lookupPrivilegeValue name = .error e →
      (EnableCurrentThreadPrivilege env name).1 = .error e ∧
      (EnableCurrentThreadPrivilege env name).2.countP isAdjustEvent = 0) ∧
    (∀ luid, env.lookupPrivilegeValue name = .ok luid →
      Event.adjustPrivileges t ⟨1, ⟨luid, SE_PRIVILEGE_ENABLED⟩⟩ ∈
        (EnableCurrentThreadPrivilege env name).2 ∧
      (∀ e, env.adjustTokenPrivileges t ⟨1, ⟨luid, SE_PRIVILEGE_ENABLED⟩⟩ = .error e →
        (EnableCurrentThreadPrivilege env name).1 = .error e) ∧
      (env.adjustTokenPrivileges t ⟨1, ⟨luid, SE_PRIVILEGE_ENABLED⟩⟩ = .ok () →
        (EnableCurrentThreadPrivilege env name).1 = .ok ())) := by
  unfold EnableCurrentThreadPrivilege
  rw [ht]; dsimp only; rw [hu]; dsimp only
  refine ⟨fun e he => ?_, fun luid hl => ?_⟩
  · rw [he]
    exact ⟨rfl, by simp [isAdjustEvent]⟩
  · rw [hl]; dsimp only
    refine ⟨?_, fun e ha => ?_, fun ha => ?_⟩
    · rcases env.adjustTokenPrivileges t ⟨1, ⟨luid, SE_PRIVILEGE_ENABLED⟩⟩ with e | u <;> simp
    · rw [ha]
    · rw [ha]

/-- C7 witness: on the all-success environment, with thread token 11 and
LUID 20, the privilege is adjusted with exactly one enabled entry and the
call succeeds. -/
theorem enableCurrentThreadPrivilege_spec_witness :
    envOk.openThreadToken = .ok 11 ∧
    envOk.utf16PtrFromString "SeDebugPrivilege" = .ok () ∧
    envOk.lookupPrivilegeValue "SeDebugPrivilege" = .ok 20 ∧
    (EnableCurrentThreadPrivilege envOk "SeDebugPrivilege").1 = .ok () ∧
    Event.adjustPrivileges 11 ⟨1, ⟨20, SE_PRIVILEGE_ENABLED⟩⟩ ∈
      (EnableCurrentThreadPrivilege envOk "SeDebugPrivilege").2 :=
  ⟨rfl, rfl, rfl,
    ((enableCurrentThreadPrivilege_spec envOk "SeDebugPrivilege" 11 rfl rfl).2 20 rfl).2.2 rfl,
    ((enableCurrentThreadPrivilege_spec envOk "SeDebugPrivilege" 11 rfl rfl).2 20 rfl).1⟩

/-- C6: the public entry point wraps a Locator failure with
"failed to find desktop: " and then performs no event at all (so no
process-open ever happens); on Locator success it runs the Spawner on the
resolved pid (the entry point's trace is exactly the Spawner's trace at
that pid), wrapping a Spawner failure with "failed to start executable: "
and otherwise succeeding. -/
theorem startProcessAsCurrentGUIUser_wraps (env : WinEnv) (path : String)
    (extra : List String) :
    (∀ e, GetDesktopPID env = .error e →
      (StartProcessAsCurrentGUIUser env path extra).1 =
        .error ("failed to find desktop: " ++ e) ∧
      (StartProcessAsCurrentGUIUser env path extra).2 = []) ∧
    (∀ pid, GetDesktopPID env = .ok pid →
      (StartProcessAsCurrentGUIUser env path extra).2 =
        (StartProcessAsChild env pid path extra).2 ∧
      (∀ e, (StartProcessAsChild env pid path extra).1 = .error e →
        (StartProcessAsCurrentGUIUser env path extra).1 =
          .error ("failed to start executable: " ++ e)) ∧
      ((StartProcessAsChild env pid path extra).1 = .ok () →
        (StartProcessAsCurrentGUIUser env path extra).1 = .ok ())) := by
  refine ⟨fun e he => ?_, fun pid hp => ?_⟩
  · unfold StartProcessAsCurrentGUIUser
    rw [he]
    exact ⟨rfl, rfl⟩
  · unfold StartProcessAsCurrentGUIUser
    rw [hp]; dsimp only
    rcases hs : StartProcessAsChild env pid path extra with ⟨r, tr⟩
    rcases r with e2 | u2 <;> dsimp only
    · refine ⟨rfl, fun e hee => ?_, fun hok => ?_⟩
      · simp at hee; subst hee; rfl
      · simp at hok
    · refine ⟨rfl, fun e hee => ?_, fun hok => rfl⟩
      simp at hee

/-- C6 witness: with no shell window the entry point returns the wrapped
locator error and makes no call at all; on the all-success environment it
returns success. -/
theorem startProcessAsCurrentGUIUser_wraps_witness :
    GetDesktopPID envNoShell = .error ErrNoShell ∧
    (StartProcessAsCurrentGUIUser envNoShell "app.exe" []).1 =
      .error ("failed to find desktop: " ++ ErrNoShell) ∧
    (StartProcessAsCurrentGUIUser envNoShell "app.exe" []).2 = [] ∧
    GetDesktopPID envOk = .ok 42 ∧
    (StartProcessAsCurrentGUIUser envOk "app.exe" []).1 = .ok () :=
  ⟨rfl,
    ((startProcessAsCurrentGUIUser_wraps envNoShell "app.exe" []).1 ErrNoShell rfl).1,
    ((startProcessAsCurrentGUIUser_wraps envNoShell "app.exe" []).1 ErrNoShell rfl).2,
    rfl,
    ((startProcessAsCurrentGUIUser_wraps envOk "app.exe" []).2 42 rfl).2.2 rfl⟩

/-- C1: the spawn operation is a strictly linear sequence — the first
failing step aborts the invocation and returns that step's error (stated
for each of the eight steps); when privilege elevation fails no
target-process open is ever attempted; every privilege adjustment targets
the thread token returned by `OpenThreadToken`; and every adjustment
happens strictly after a successful `ImpersonateSelf` and before the
`RevertToSelf`. -/
theorem startProcessAsChild_linear (env : WinEnv) (pid : Nat) (path : String)
    (extra : List String) :
    (∀ e, env.impersonateSelf = .error e →
      (StartProcessAsChild env pid path extra).1 = .error e ∧
      (StartProcessAsChild env pid path extra).2.countP isOpenProcessEvent = 0 ∧
      (StartProcessAsChild env pid path extra).2.countP isAdjustEvent = 0) ∧
    (∀ e, env.impersonateSelf = .ok () →
      (EnableCurrentThreadPrivilege env "SeDebugPrivilege").1 = .error e →
      (StartProcessAsChild env pid path extra).1 = .error e ∧
      (StartProcessAsChild env pid path extra).2.countP isOpenProcessEvent = 0) ∧
    (∀ e, env.impersonateSelf = .ok () →
      (EnableCurrentThreadPrivilege env "SeDebugPrivilege").1 = .ok () →
      env.openProcess spawnAccess pid = .error e →
      (StartProcessAsChild env pid path extra).1 = .error e) ∧
    (∀ ph e, env.impersonateSelf = .ok () →
      (EnableCurrentThreadPrivilege env "SeDebugPrivilege").1 = .ok () →
      env.openProcess spawnAccess pid = .ok ph →
      env.openProcessToken ph = .error e →
      (StartProcessAsChild env pid path extra).1 = .error e) ∧
    (∀ ph pt e, env.impersonateSelf = .ok () →
      (EnableCurrentThreadPrivilege env "SeDebugPrivilege").1 = .ok () →
      env.openProcess spawnAccess pid = .ok ph →
      env.openProcessToken ph = .ok pt →
      env.environ pt = .error e →
      (StartProcessAsChild env pid path extra).1 = .error e) ∧
    (∀ ph pt E e, env.impersonateSelf = .ok () →
      (EnableCurrentThreadPrivilege env "SeDebugPrivilege").1 = .ok () →
      env.openProcess spawnAccess pid = .ok ph →
      env.openProcessToken ph = .ok pt →
      env.environ pt = .ok E →
      env.cmdStart path (E ++ extra) ph = .error e →
      (StartProcessAsChild env pid path extra).1 = .error e) ∧
    (∀ ph pt E, env.impersonateSelf = .ok () →
      (EnableCurrentThreadPrivilege env "SeDebugPrivilege").1 = .ok () →
      env.openProcess spawnAccess pid = .ok ph →
      env.openProcessToken ph = .ok pt →
      env.environ pt = .ok E →
      env.cmdStart path (E ++ extra) ph = .ok () →
      (StartProcessAsChild env pid path extra).1 = .ok ()) ∧
    (∀ t tp, Event.adjustPrivileges t tp ∈ (StartProcessAsChild env pid path extra).2 →
      env.openThreadToken = .ok t) ∧
    adjustsWhileImpersonating (StartProcessAsChild env pid path extra).2 false = true := by
  have hconj89 : (∀ t tp,
      Event.adjustPrivileges t tp ∈ (StartProcessAsChild env pid path extra).2 →
      env.openThreadToken = .ok t) ∧
      adjustsWhileImpersonating (StartProcessAsChild env pid path extra).2 false = true := by
    rcases h1 : env.impersonateSelf with e1 | u1
    · rw [spac_imp_err env pid path extra e1 h1]
      exact ⟨fun t tp hmem => by simp at hmem, by simp [adjustsWhileImpersonating]⟩
    · cases u1
      rcases hE : EnableCurrentThreadPrivilege env "SeDebugPrivilege" with ⟨r, etr⟩
      have hecp := ecp_trace_facts env "SeDebugPrivilege"
      rw [hE] at hecp
      obtain ⟨-, -, -, -, -, -, htog, hawi, -, hadj⟩ := hecp
      dsimp only at htog hawi hadj
      have hAW : ∀ rest : List Event,
          adjustsWhileImpersonating
            ([Event.lockOSThread, Event.impersonateSelf true] ++ etr ++ rest) false =
            (adjustsWhileImpersonating etr true &&
              adjustsWhileImpersonating rest true) := by
        intro rest
        rw [List.append_assoc]
        simp [adjustsWhileImpersonating, adjustsWhileImpersonating_append etr rest htog]
      rcases r with e2 | u2
      · rw [spac_elev_err env pid path extra e2 etr h1 hE]
        refine ⟨fun t tp hmem => ?_, ?_⟩
        · simp at hmem; exact hadj t tp hmem
        · rw [hAW]; simp [hawi, adjustsWhileImpersonating]
      · cases u2
        rcases h3 : env.openProcess spawnAccess pid with e3 | ph
        · rw [spac_open_err env pid path extra e3 etr h1 hE h3]
          refine ⟨fun t tp hmem => ?_, ?_⟩
          · simp at hmem; exact hadj t tp hmem
          · rw [hAW]; simp [hawi, adjustsWhileImpersonating]
        · rcases h4 : env.openProcessToken ph with e4 | pt
          · rw [spac_ptoken_err env pid path extra e4 etr ph h1 hE h3 h4]
            refine ⟨fun t tp hmem => ?_, ?_⟩
            · simp at hmem; exact hadj t tp hmem
            · rw [hAW]; simp [hawi, adjustsWhileImpersonating]
          · rcases h5 : env.environ pt with e5 | E
            · rw [spac_environ_err env pid path extra e5 etr ph pt h1 hE h3 h4 h5]
              refine ⟨fun t tp hmem => ?_, ?_⟩
              · simp at hmem; exact hadj t tp hmem
              · rw [hAW]; simp [hawi, adjustsWhileImpersonating]
            · rcases h6 : env.cmdStart path (E ++ extra) ph with e6 | u6
              · rw [spac_cmd_err env pid path extra e6 etr ph pt E h1 hE h3 h4 h5 h6]
                refine ⟨fun t tp hmem => ?_, ?_⟩
                · simp at hmem; exact hadj t tp hmem
                · rw [hAW]; simp [hawi, adjustsWhileImpersonating]
              · cases u6
                rw [spac_ok env pid path extra etr ph pt E h1 hE h3 h4 h5 h6]
                refine ⟨fun t tp hmem => ?_, ?_⟩
                · simp at hmem; exact hadj t tp hmem
                · rw [hAW]; simp [hawi, adjustsWhileImpersonating]
  refine ⟨fun e h1 => ?_, fun e h1 h2 => ?_, fun e h1 h2 h3 => ?_,
    fun ph e h1 h2 h3 h4 => ?_, fun ph pt e h1 h2 h3 h4 h5 => ?_,
    fun ph pt E e h1 h2 h3 h4 h5 h6 => ?_, fun ph pt E h1 h2 h3 h4 h5 h6 => ?_,
    hconj89.1, hconj89.2⟩
  · rw [spac_imp_err env pid path extra e h1]
    exact ⟨rfl, by simp [isOpenProcessEvent], by simp [isAdjustEvent]⟩
  · rcases hE : EnableCurrentThreadPrivilege env "SeDebugPrivilege" with ⟨r, etr⟩
    rw [hE] at h2; dsimp only at h2; subst h2
    rw [spac_elev_err env pid path extra e etr h1 hE]
    have hecp := ecp_trace_facts env "SeDebugPrivilege"
    rw [hE] at hecp
    obtain ⟨-, -, -, h4c, -, -, -, -, -, -⟩ := hecp
    dsimp only at h4c
    refine ⟨rfl, ?_⟩
    simp [List.countP_append, isOpenProcessEvent, h4c]
  · rcases hE : EnableCurrentThreadPrivilege env "SeDebugPrivilege" with ⟨r, etr⟩
    rw [hE] at h2; dsimp only at h2; subst h2
    rw [spac_open_err env pid path extra e etr h1 hE h3]
  · rcases hE : EnableCurrentThreadPrivilege env "SeDebugPrivilege" with ⟨r, etr⟩
    rw [hE] at h2; dsimp only at h2; subst h2
    rw [spac_ptoken_err env pid path extra e etr ph h1 hE h3 h4]
  · rcases hE : EnableCurrentThreadPrivilege env "SeDebugPrivilege" with ⟨r, etr⟩
    rw [hE] at h2; dsimp only at h2; subst h2
    rw [spac_environ_err env pid path extra e etr ph pt h1 hE h3 h4 h5]
  · rcases hE : EnableCurrentThreadPrivilege env "SeDebugPrivilege" with ⟨r, etr⟩
    rw [hE] at h2; dsimp only at h2; subst h2
    rw [spac_cmd_err env pid path extra e etr ph pt E h1 hE h3 h4 h5 h6]
  · rcases hE : EnableCurrentThreadPrivilege env "SeDebugPrivilege" with ⟨r, etr⟩
    rw [hE] at h2; dsimp only at h2; subst h2
    rw [spac_ok env pid path extra etr ph pt E h1 hE h3 h4 h5 h6]

/-- C1 witness: in an environment where `AdjustTokenPrivileges` is denied,
impersonation succeeds, elevation fails with that error, the spawn
invocation returns it, and no target-process open is ever attempted. -/
theorem startProcessAsChild_linear_witness :
    envAdjustFail.impersonateSelf = .ok () ∧
    (EnableCurrentThreadPrivilege envAdjustFail "SeDebugPrivilege").1 =
      .error "access denied" ∧
    (StartProcessAsChild envAdjustFail 42 "app.exe" []).1 = .error "access denied" ∧
    (StartProcessAsChild envAdjustFail 42 "app.exe" []).2.countP isOpenProcessEvent = 0 :=
  ⟨rfl, rfl,
    ((startProcessAsChild_linear envAdjustFail 42 "app.exe" []).2.1
      "access denied" rfl rfl).1,
    ((startProcessAsChild_linear envAdjustFail 42 "app.exe" []).2.1
      "access denied" rfl rfl).2⟩

/-- C2: in every invocation of the spawn operation, on every exit path,
the security tokens opened (the thread token inside
`EnableCurrentThreadPrivilege` and the target process token) are exactly
the tokens closed, and the process handles opened are exactly the handles
closed — each opened resource is released exactly once before return. -/
theorem startProcessAsChild_handles_balanced (env : WinEnv) (pid : Nat) (path : String)
    (extra : List String) :
    openedTokens (StartProcessAsChild env pid path extra).2 =
      closedTokens (StartProcessAsChild env pid path extra).2 ∧
    openedHandles (StartProcessAsChild env pid path extra).2 =
      closedHandles (StartProcessAsChild env pid path extra).2 := by
  rcases h1 : env.impersonateSelf with e1 | u1
  · rw [spac_imp_err env pid path extra e1 h1]
    exact ⟨rfl, rfl⟩
  · cases u1
    rcases hE : EnableCurrentThreadPrivilege env "SeDebugPrivilege" with ⟨r, etr⟩
    have hecp := ecp_trace_facts env "SeDebugPrivilege"
    rw [hE] at hecp
    obtain ⟨hTok, hH1, hH2, -, -, -, -, -, -, -⟩ := hecp
    dsimp only at hTok hH1 hH2
    have hTok' : List.filterMap tokenOpened etr = List.filterMap tokenClosed etr := hTok
    have hH1' : List.filterMap handleOpened etr = [] := hH1
    have hH2' : List.filterMap handleClosed etr = [] := hH2
    rcases r with e2 | u2
    · rw [spac_elev_err env pid path extra e2 etr h1 hE]
      constructor <;>
        simp [openedTokens, closedTokens, openedHandles, closedHandles,
          List.filterMap_append, List.filterMap_cons, tokenOpened, tokenClosed,
          handleOpened, handleClosed, hTok', hH1', hH2']
    · cases u2
      rcases h3 : env.openProcess spawnAccess pid with e3 | ph
      · rw [spac_open_err env pid path extra e3 etr h1 hE h3]
        constructor <;>
          simp [openedTokens, closedTokens, openedHandles, closedHandles,
            List.filterMap_append, List.filterMap_cons, tokenOpened, tokenClosed,
            handleOpened, handleClosed, hTok', hH1', hH2']
      · rcases h4 : env.openProcessToken ph with e4 | pt
        · rw [spac_ptoken_err env pid path extra e4 etr ph h1 hE h3 h4]
          constructor <;>
            simp [openedTokens, closedTokens, openedHandles, closedHandles,
              List.filterMap_append, List.filterMap_cons, tokenOpened, tokenClosed,
              handleOpened, handleClosed, hTok', hH1', hH2']
        · rcases h5 : env.environ pt with e5 | E
          · rw [spac_environ_err env pid path extra e5 etr ph pt h1 hE h3 h4 h5]
            constructor <;>
              simp [openedTokens, closedTokens, openedHandles, closedHandles,
                List.filterMap_append, List.filterMap_cons, tokenOpened, tokenClosed,
                handleOpened, handleClosed, hTok', hH1', hH2']
          · rcases h6 : env.cmdStart path (E ++ extra) ph with e6 | u6
            · rw [spac_cmd_err env pid path extra e6 etr ph pt E h1 hE h3 h4 h5 h6]
              constructor <;>
                simp [openedTokens, closedTokens, openedHandles, closedHandles,
                  List.filterMap_append, List.filterMap_cons, tokenOpened, tokenClosed,
                  handleOpened, handleClosed, hTok', hH1', hH2']
            · cases u6
              rw [spac_ok env pid path extra etr ph pt E h1 hE h3 h4 h5 h6]
              constructor <;>
                simp [openedTokens, closedTokens, openedHandles, closedHandles,
                  List.filterMap_append, List.filterMap_cons, tokenOpened, tokenClosed,
                  handleOpened, handleClosed, hTok', hH1', hH2']

/-- C3: whenever `ImpersonateSelf` succeeds, `RevertToSelf` runs on every
exit path of the spawn invocation, and running the invocation's trace over
any starting security context leaves the ambient process privileges
unchanged and the thread no longer impersonating. -/
theorem startProcessAsChild_scope_released (env : WinEnv) (pid : Nat) (path : String)
    (extra : List String) (s : SecCtx) (h1 : env.impersonateSelf = .ok ()) :
    Event.revertToSelf ∈ (StartProcessAsChild env pid path extra).2 ∧
    (runSec s (StartProcessAsChild env pid path extra).2).processPrivs =
      s.processPrivs ∧
    (runSec s (StartProcessAsChild env pid path extra).2).threadTok = none := by
  obtain ⟨pp, tt⟩ := s
  rcases hE : EnableCurrentThreadPrivilege env "SeDebugPrivilege" with ⟨r, etr⟩
  obtain ⟨l2, hrun⟩ := ecp_runSec env "SeDebugPrivilege" pp pp
  rw [hE] at hrun
  dsimp only at hrun
  have hrun' : List.foldl secStep ⟨pp, some pp⟩ etr = ⟨pp, some l2⟩ := hrun
  rcases r with e2 | u2
  · rw [spac_elev_err env pid path extra e2 etr h1 hE]
    refine ⟨by simp, ?_, ?_⟩ <;>
      simp [runSec, List.foldl_append, secStep, hrun']
  · cases u2
    rcases h3 : env.openProcess spawnAccess pid with e3 | ph
    · rw [spac_open_err env pid path extra e3 etr h1 hE h3]
      refine ⟨by simp, ?_, ?_⟩ <;>
        simp [runSec, List.foldl_append, secStep, hrun']
    · rcases h4 : env.openProcessToken ph with e4 | pt
      · rw [spac_ptoken_err env pid path extra e4 etr ph h1 hE h3 h4]
        refine ⟨by simp, ?_, ?_⟩ <;>
          simp [runSec, List.foldl_append, secStep, hrun']
      · rcases h5 : env.environ pt with e5 | E
        · rw [spac_environ_err env pid path extra e5 etr ph pt h1 hE h3 h4 h5]
          refine ⟨by simp, ?_, ?_⟩ <;>
            simp [runSec, List.foldl_append, secStep, hrun']
        · rcases h6 : env.cmdStart path (E ++ extra) ph with e6 | u6
          · rw [spac_cmd_err env pid path extra e6 etr ph pt E h1 hE h3 h4 h5 h6]
            refine ⟨by simp, ?_, ?_⟩ <;>
              simp [runSec, List.foldl_append, secStep, hrun']
          · cases u6
            rw [spac_ok env pid path extra etr ph pt E h1 hE h3 h4 h5 h6]
            refine ⟨by simp, ?_, ?_⟩ <;>
              simp [runSec, List.foldl_append, secStep, hrun']

/-- C3 witness: on the all-success environment, starting from a context
with ambient privileges `[5]` and no impersonation, the spawn trace
contains `RevertToSelf` and restores the context. -/
theorem startProcessAsChild_scope_released_witness :
    envOk.impersonateSelf = .ok () ∧
    Event.revertToSelf ∈ (StartProcessAsChild envOk 42 "app.exe" []).2 ∧
    (runSec ⟨[5], none⟩ (StartProcessAsChild envOk 42 "app.exe" []).2).processPrivs =
      [5] ∧
    (runSec ⟨[5], none⟩ (StartProcessAsChild envOk 42 "app.exe" []).2).threadTok =
      none :=
  ⟨rfl,
    (startProcessAsChild_scope_released envOk 42 "app.exe" [] ⟨[5], none⟩ rfl).1,
    (startProcessAsChild_scope_released envOk 42 "app.exe" [] ⟨[5], none⟩ rfl).2.1,
    (startProcessAsChild_scope_released envOk 42 "app.exe" [] ⟨[5], none⟩ rfl).2.2⟩

/-- C9: every spawn invocation pins the OS thread as its very first
observable event and unpins as its very last, with exactly one pin and one
unpin — so every intervening call (impersonation, elevation, opens,
environment extraction, process creation) happens while the pin holds. -/
theorem startProcessAsChild_thread_pinned (env : WinEnv) (pid : Nat) (path : String)
    (extra : List String) :
    (StartProcessAsChild env pid path extra).2.head? = some .lockOSThread ∧
    (StartProcessAsChild env pid path extra).2.getLast? = some .unlockOSThread ∧
    (StartProcessAsChild env pid path extra).2.countP isLockEvent = 1 ∧
    (StartProcessAsChild env pid path extra).2.countP isUnlockEvent = 1 := by
  rcases h1 : env.impersonateSelf with e1 | u1
  · rw [spac_imp_err env pid path extra e1 h1]
    exact ⟨rfl, rfl, rfl, rfl⟩
  · cases u1
    rcases hE : EnableCurrentThreadPrivilege env "SeDebugPrivilege" with ⟨r, etr⟩
    have hecp := ecp_trace_facts env "SeDebugPrivilege"
    rw [hE] at hecp
    obtain ⟨-, -, -, -, h5c, h6c, -, -, -, -⟩ := hecp
    dsimp only at h5c h6c
    rcases r with e2 | u2
    · rw [spac_elev_err env pid path extra e2 etr h1 hE]
      refine ⟨by simp, ?_, ?_, ?_⟩
      · rw [List.getLast?_append_cons]; rfl
      · simp [List.countP_append, isLockEvent, h5c]
      · simp [List.countP_append, isUnlockEvent, h6c]
    · cases u2
      rcases h3 : env.openProcess spawnAccess pid with e3 | ph
      · rw [spac_open_err env pid path extra e3 etr h1 hE h3]
        refine ⟨by simp, ?_, ?_, ?_⟩
        · rw [List.getLast?_append_cons]; rfl
        · simp [List.countP_append, isLockEvent, h5c]
        · simp [List.countP_append, isUnlockEvent, h6c]
      · rcases h4 : env.openProcessToken ph with e4 | pt
        · rw [spac_ptoken_err env pid path extra e4 etr ph h1 hE h3 h4]
          refine ⟨by simp, ?_, ?_, ?_⟩
          · rw [List.getLast?_append_cons]; rfl
          · simp [List.countP_append, isLockEvent, h5c]
          · simp [List.countP_append, isUnlockEvent, h6c]
        · rcases h5 : env.environ pt with e5 | E
          · rw [spac_environ_err env pid path extra e5 etr ph pt h1 hE h3 h4 h5]
            refine ⟨by simp, ?_, ?_, ?_⟩
            · rw [List.getLast?_append_cons]; rfl
            · simp [List.countP_append, isLockEvent, h5c]
            · simp [List.countP_append, isUnlockEvent, h6c]
          · rcases h6 : env.cmdStart path (E ++ extra) ph with e6 | u6
            · rw [spac_cmd_err env pid path extra e6 etr ph pt E h1 hE h3 h4 h5 h6]
              refine ⟨by simp, ?_, ?_, ?_⟩
              · rw [List.getLast?_append_cons]; rfl
              · simp [List.countP_append, isLockEvent, h5c]
              · simp [List.countP_append, isUnlockEvent, h6c]
            · cases u6
              rw [spac_ok env pid path extra etr ph pt E h1 hE h3 h4 h5 h6]
              refine ⟨by simp, ?_, ?_, ?_⟩
              · rw [List.getLast?_append_cons]; rfl
              · simp [List.countP_append, isLockEvent, h5c]
              · simp [List.countP_append, isUnlockEvent, h6c]

/-- C4: when the target's environment block `E` is successfully extracted
from the target process token, the block handed to process creation is
exactly `E ++ extraEnv` — original entries unmodified and in order,
`extraEnv` appended verbatim, no deduplication — and the result is
independent of the caller's own environment. -/
theorem startProcessAsChild_env_merge (env : WinEnv) (pid : Nat) (path : String)
    (extra : List String) (ph pt : Nat) (E : List String)
    (h1 : env.impersonateSelf = .ok ())
    (h2 : (EnableCurrentThreadPrivilege env "SeDebugPrivilege").1 = .ok ())
    (h3 : env.openProcess spawnAccess pid = .ok ph)
    (h4 : env.openProcessToken ph = .ok pt)
    (h5 : env.environ pt = .ok E) :
    Event.cmdStart path (E ++ extra) ph ∈ (StartProcessAsChild env pid path extra).2 ∧
    (∀ p b par, Event.cmdStart p b par ∈ (StartProcessAsChild env pid path extra).2 →
      p = path ∧ b = E ++ extra ∧ par = ph) ∧
    (∀ c, StartProcessAsChild { env with callerEnviron := c } pid path extra =
      StartProcessAsChild env pid path extra) := by
  have hframe : ∀ c,
      StartProcessAsChild { env with callerEnviron := c } pid path extra =
      StartProcessAsChild env pid path extra := fun c => rfl
  rcases hE : EnableCurrentThreadPrivilege env "SeDebugPrivilege" with ⟨r, etr⟩
  rw [hE] at h2; dsimp only at h2; subst h2
  have hecp := ecp_trace_facts env "SeDebugPrivilege"
  rw [hE] at hecp
  obtain ⟨-, -, -, -, -, -, -, -, hcmd, -⟩ := hecp
  dsimp only at hcmd
  have hmain :
      Event.cmdStart path (E ++ extra) ph ∈ (StartProcessAsChild env pid path extra).2 ∧
      (∀ p b par, Event.cmdStart p b par ∈ (StartProcessAsChild env pid path extra).2 →
        p = path ∧ b = E ++ extra ∧ par = ph) := by
    rcases h6 : env.cmdStart path (E ++ extra) ph with e6 | u6
    · rw [spac_cmd_err env pid path extra e6 etr ph pt E h1 hE h3 h4 h5 h6]
      refine ⟨by simp, fun p b par hmem => ?_⟩
      simp at hmem
      rcases hmem with hmem | hmem
      · exact absurd hmem (hcmd p b par)
      · exact hmem
    · cases u6
      rw [spac_ok env pid path extra etr ph pt E h1 hE h3 h4 h5 h6]
      refine ⟨by simp, fun p b par hmem => ?_⟩
      simp at hmem
      rcases hmem with hmem | hmem
      · exact absurd hmem (hcmd p b par)
      · exact hmem
  exact ⟨hmain.1, hmain.2, hframe⟩

/-- C4 witness: the scenario of the spec — target environment
`[A=1, B=2]`, `extraEnv = [C=3]` — hands `[A=1, B=2, C=3]` to process
creation, parented to the target handle. -/
theorem startProcessAsChild_env_merge_witness :
    envOk.environ 44 = .ok ["A=1", "B=2"] ∧
    Event.cmdStart "app.exe" ["A=1", "B=2", "C=3"] 33 ∈
      (StartProcessAsChild envOk 42 "app.exe" ["C=3"]).2 := by
  refine ⟨rfl, ?_⟩
  have h := (startProcessAsChild_env_merge envOk 42 "app.exe" ["C=3"] 33 44
    ["A=1", "B=2"] rfl rfl rfl rfl rfl).1
  simpa using h

end Winutil
